import Mathlib

/-!
Shallow embedding of the S21 air-conditioner simulator
(`src/Tools/Simulators/faikin-s21.c`) and proofs about the claims of its
specification.

Bytes are modelled as `Nat` (values below 256 on the wire); the serial
channel is a `List Nat` of input bytes, and the engine's emitted bytes are
collected into a `List Nat`.  The 256-byte C response array, which is
reused across transactions, is modelled as a function `Nat → Nat` from
index to byte so that stale bytes (the source does not always write every
payload slot, e.g. the F8 handler leaves `response[6]` untouched) are
carried over faithfully.  The blocking read loop of `main` is modelled as
`runFuel`, structurally recursive on a fuel bound; exhausted fuel or an
exhausted input stream both model the engine blocking forever on `read`.
-/

namespace FaikinS21

set_option maxRecDepth 16384

/-- Modelled from the spec: the protocol's sentinel byte values are defined in
`main/daikin_s21.h`, which is not under `src/`.  The spec calls them
protocol-defined constants; the start and end markers 0x02/0x03 are
corroborated by the verbatim real-device frame dumps quoted in the source
comments (each dump starts with 02 and ends with 03), and ACK/NAK are the
standard ASCII control codes 0x06/0x15. -/
def STX : Nat := 2

/-- End-of-frame marker byte (see `STX`). -/
def ETX : Nat := 3

/-- Acknowledge byte (see `STX`). -/
def ACK : Nat := 6

/-- Negative-acknowledge byte (see `STX`). -/
def NAK : Nat := 21

/-- Offset of the start marker in a frame (`S21_STX_OFFSET`). -/
def S21_STX_OFFSET : Nat := 0

/-- Offset of the first command byte (`S21_CMD0_OFFSET`). -/
def S21_CMD0_OFFSET : Nat := 1

/-- Offset of the second command byte (`S21_CMD1_OFFSET`). -/
def S21_CMD1_OFFSET : Nat := 2

/-- Offset of the payload (`S21_PAYLOAD_OFFSET`). -/
def S21_PAYLOAD_OFFSET : Nat := 3

/-- Framing overhead: start marker, checksum, end marker (`S21_FRAMING_LEN`). -/
def S21_FRAMING_LEN : Nat := 3

/-- Standard payload length (`S21_PAYLOAD_LEN`). -/
def S21_PAYLOAD_LEN : Nat := 4

/-- Conversion of a C `int` value to an `unsigned char`: reduction modulo 256
(the C conversion to an unsigned type is defined as value mod 2^8). -/
def byteOf (v : Int) : Nat := (v % 256).toNat

/-- Write byte `v` at index `i` of a byte array modelled as `Nat → Nat`. -/
def wr (r : Nat → Nat) (i v : Nat) : Nat → Nat := fun j => if j = i then v else r j

/-- Modelled from the spec: `s21_checksum` is declared in `main/daikin_s21.h`,
which is not under `src/`.  The spec pins a single deterministic checksum
byte computed over the frame up to the payload; the concrete formula — the
sum, modulo 256, of the frame bytes strictly between the start marker and
the checksum byte — is corroborated by the real-device dumps quoted in the
source comments: in `02 53 48 30 35 32 2B 5D 03` the checksum byte 0x5D
equals (0x53+0x48+0x30+0x35+0x32+0x2B) mod 256.  The function receives the
buffer and the total frame length, like the C call sites
`s21_checksum(buf, len)`. -/
def s21_checksum (f : List Nat) (len : Nat) : Nat :=
  (((f.take (len - 2)).drop 1).sum) % 256

/-- Decimal ASCII digits of `n`, most significant first, with explicit fuel
(the model of the C library's `%d` conversion used by `snprintf`). -/
def digitsCore : Nat → Nat → List Nat
  | 0, _ => []
  | fuel+1, n => if n < 10 then [n + 48] else digitsCore fuel (n / 10) ++ [n % 10 + 48]

/-- Decimal ASCII digits of `n`, most significant first. -/
def decDigits (n : Nat) : List Nat := digitsCore (n + 1) n

/-- Model of `snprintf(buf, sizeof(buf), "%+d", value)` with `char buf[5]` in
`send_temp`: the sign character followed by the decimal digits, truncated to
at most 4 characters, then NUL-terminated.  The first four bytes of the
buffer are returned.  When the formatted string is shorter than 3
characters the source leaves `buf[3]` uninitialized; the model pads with 0,
and no theorem below depends on that region. -/
def sprintfPlusD (v : Int) : List Nat :=
  let s := (if v < 0 then 45 else 43) :: decDigits v.natAbs
  (s.take 4 ++ [0, 0, 0]).take 4

/-- Model of `snprintf(buf, sizeof(buf), "%03d", value)` with `char buf[4]` in
`send_int`: the value zero-padded to a minimum field width of 3 (the sign,
if any, counts toward the width), truncated to at most 3 characters, then
NUL-terminated.  The four bytes of the buffer are returned. -/
def sprintf03d (v : Int) : List Nat :=
  let d := decDigits v.natAbs
  let s := if v < 0 then 45 :: (List.replicate (2 - d.length) 48 ++ d)
           else List.replicate (3 - d.length) 48 ++ d
  (s.take 3 ++ [0]).take 4

/-- Modelled from the spec: `s21_decode_target_temp` is declared in
`main/daikin_s21.h`, not under `src/`.  The source comment at the F1
handler gives the encoding: degrees = 18.0 + 0.5 * (payload byte - the
character at 0x40).  Target temperatures are represented here in
half-degree units (so the 0.5-degree grid is exact integers and the float
arithmetic of the source, exact on this grid, is mirrored exactly):
half-degrees = 36 + (byte - 64). -/
def s21_decode_target_temp (b : Nat) : Int := 36 + ((b : Int) - 64)

/-- Inverse of `s21_decode_target_temp` (see there), producing the wire byte
for a target temperature in half-degree units. -/
def s21_encode_target_temp (t : Int) : Nat := byteOf (t - 36 + 64)

/-- Modelled from the spec: `s21_decode_fan` is declared in
`main/daikin_s21.h`, not under `src/`.  Spec section 4.3 pins fan as a
direct ASCII-digit field, a single character offset from the digit 0. -/
def s21_decode_fan (b : Nat) : Int := (b : Int) - 48

/-- Inverse of `s21_decode_fan` (see there). -/
def s21_encode_fan (f : Int) : Nat := byteOf (f + 48)

/-- The simulated A/C state: the global variables of the source that the
command handlers read and write.  `temp` is in half-degree units (see
`s21_decode_target_temp`); the integer fields are C `int`s. -/
structure AcState where
  power : Int
  mode : Int
  temp : Int
  fan : Int
  swing : Int
  powerful : Int
  eco : Int
  home : Int
  outside : Int
  inlet : Int
  fanrpm : Int
  comprpm : Int
  protocol : Int
  model : List Nat

/-- The engine state: the A/C state plus the 256-byte `response` array of
`main`, which is reused (and hence carries stale bytes) across
transactions. -/
structure Sim where
  ac : AcState
  resp : Nat → Nat

/-- `s21_nonstd_reply`: send ACK, then build and send a frame whose body of
`body_len` bytes is already in the response buffer at indices 1..body_len.
Writes the start marker, checksum and end marker, and returns the emitted
bytes (the ACK followed by the `S21_FRAMING_LEN + body_len` frame bytes)
together with the updated response buffer. -/
def s21_nonstd_reply (r : Nat → Nat) (body_len : Nat) : List Nat × (Nat → Nat) :=
  let pkt_len := S21_FRAMING_LEN + body_len
  let r1 := wr r S21_STX_OFFSET STX
  let chk := s21_checksum ((List.range pkt_len).map r1) pkt_len
  let r2 := wr (wr r1 (S21_CMD0_OFFSET + body_len) chk) (S21_CMD0_OFFSET + body_len + 1) ETX
  (ACK :: (List.range pkt_len).map r2, r2)

/-- `s21_reply`: write the response command identifier (first request command
byte plus one, second unchanged) and delegate to `s21_nonstd_reply` with a
body of two command bytes plus `payload_len` payload bytes. -/
def s21_reply (r : Nat → Nat) (cmd : List Nat) (payload_len : Nat) : List Nat × (Nat → Nat) :=
  let r1 := wr (wr r S21_CMD0_OFFSET ((cmd.getD S21_CMD0_OFFSET 0 + 1) % 256))
               S21_CMD1_OFFSET (cmd.getD S21_CMD1_OFFSET 0)
  s21_nonstd_reply r1 (2 + payload_len)

/-- `unknown_cmd`: reply with four fixed payload bytes. -/
def unknown_cmd (r : Nat → Nat) (cmd : List Nat) (r0 r1 r2 r3 : Nat) :
    List Nat × (Nat → Nat) :=
  s21_reply (wr (wr (wr (wr r 3 r0) 4 r1) 5 r2) 6 r3) cmd S21_PAYLOAD_LEN

/-- `send_temp`: format the pre-scaled signed sensor value with `%+d` and
write the four buffer bytes into the payload in reverse order. -/
def send_temp (r : Nat → Nat) (cmd : List Nat) (value : Int) : List Nat × (Nat → Nat) :=
  let b := sprintfPlusD value
  s21_reply (wr (wr (wr (wr r 3 (b.getD 3 0)) 4 (b.getD 2 0)) 5 (b.getD 1 0)) 6 (b.getD 0 0))
    cmd S21_PAYLOAD_LEN

/-- `send_int`: format the value with `%03d` and write three buffer bytes into
the payload in reverse order.  Note: the source passes the local digit
buffer `buf`, not the `cmd` parameter, as the command argument of
`s21_reply` — the response's command identifier is therefore derived from
the formatted digits, mirrored faithfully here. -/
def send_int (r : Nat → Nat) (cmd : List Nat) (value : Int) : List Nat × (Nat → Nat) :=
  let b := sprintf03d value
  s21_reply (wr (wr (wr r 3 (b.getD 2 0)) 4 (b.getD 1 0)) 5 (b.getD 0 0)) b 3

/-- Wrap a reply builder's result into a dispatch result: the emitted bytes,
the engine state with the updated response buffer, and the flag that the
main loop must now wait for the peer's acknowledgement byte. -/
def emitReply (sim : Sim) (p : List Nat × (Nat → Nat)) : List Nat × Sim × Bool :=
  (p.1, { sim with resp := p.2 }, true)

/-- The set-class (`D*`) handlers of `main`: mutate the A/C state from the
payload bytes of the request frame `buf`; unknown sub-commands only log. -/
def dSet (a : AcState) (c1 : Nat) (buf : List Nat) : AcState :=
  if c1 = 49 then
    { a with power := (buf.getD (S21_PAYLOAD_OFFSET + 0) 0 : Int) - 48,
             mode := (buf.getD (S21_PAYLOAD_OFFSET + 1) 0 : Int) - 48,
             temp := s21_decode_target_temp (buf.getD (S21_PAYLOAD_OFFSET + 2) 0),
             fan := s21_decode_fan (buf.getD (S21_PAYLOAD_OFFSET + 3) 0) }
  else if c1 = 53 then
    { a with swing := (buf.getD (S21_PAYLOAD_OFFSET + 0) 0 : Int) - 48 }
  else if c1 = 54 then
    { a with powerful := if buf.getD (S21_PAYLOAD_OFFSET + 0) 0 = 50 then 1 else 0 }
  else a

/-- The query-class (`F*`) switch of `main`, keyed on the second command byte
`c1`; unrecognized sub-commands answer with a single NAK byte. -/
def fDispatch (sim : Sim) (buf : List Nat) (c1 : Nat) : List Nat × Sim × Bool :=
  if c1 = 49 then
    emitReply sim (s21_reply
      (wr (wr (wr (wr sim.resp 3 (byteOf (sim.ac.power + 48)))
        4 (byteOf (sim.ac.mode + 48)))
        5 (s21_encode_target_temp sim.ac.temp))
        6 (s21_encode_fan sim.ac.fan)) buf S21_PAYLOAD_LEN)
  else if c1 = 50 then
    emitReply sim (unknown_cmd sim.resp buf 0x3D 0x3B 0x00 0x80)
  else if c1 = 51 then
    emitReply sim (s21_reply
      (wr (wr (wr (wr sim.resp 3 0x30) 4 0xFE) 5 0xFE)
        6 (if sim.ac.powerful = 0 then 0 else 2)) buf S21_PAYLOAD_LEN)
  else if c1 = 52 then
    emitReply sim (unknown_cmd sim.resp buf 0x30 0x00 0x80 0x30)
  else if c1 = 53 then
    emitReply sim (s21_reply
      (wr (wr (wr (wr sim.resp 3 (byteOf sim.ac.swing)) 4 0) 5 0) 6 0) buf S21_PAYLOAD_LEN)
  else if c1 = 54 then
    emitReply sim (s21_reply
      (wr (wr (wr (wr sim.resp 3 (if sim.ac.powerful = 0 then 0 else 2)) 4 0) 5 0) 6 0)
      buf S21_PAYLOAD_LEN)
  else if c1 = 55 then
    emitReply sim (s21_reply
      (wr (wr (wr (wr sim.resp 3 0) 4 (if sim.ac.eco = 0 then 48 else 50)) 5 0) 6 0)
      buf S21_PAYLOAD_LEN)
  else if c1 = 56 then
    -- the F8 handler writes only payload bytes 0..2; response[6] keeps its
    -- stale value from the previous transaction
    emitReply sim (s21_reply
      (wr (wr (wr sim.resp 3 48) 4 (byteOf (sim.ac.protocol + 48))) 5 48) buf S21_PAYLOAD_LEN)
  else if c1 = 57 then
    emitReply sim (s21_reply
      (wr (wr (wr (wr sim.resp 3 (byteOf (Int.tdiv sim.ac.home 5 + 0x80)))
        4 (byteOf (Int.tdiv sim.ac.outside 5 + 0x80))) 5 0xFF) 6 0x30) buf S21_PAYLOAD_LEN)
  else if c1 = 67 then
    emitReply sim (s21_reply
      (wr (wr (wr (wr sim.resp 3 (sim.ac.model.getD 3 0)) 4 (sim.ac.model.getD 2 0))
        5 (sim.ac.model.getD 1 0)) 6 (sim.ac.model.getD 0 0)) buf S21_PAYLOAD_LEN)
  else if c1 = 66 then
    emitReply sim (unknown_cmd sim.resp buf 0x30 0x33 0x36 0x30)
  else if c1 = 71 then
    emitReply sim (unknown_cmd sim.resp buf 0x30 0x34 0x30 0x30)
  else if c1 = 75 then
    emitReply sim (unknown_cmd sim.resp buf 0x71 0x73 0x35 0x31)
  else if c1 = 77 then
    emitReply sim (unknown_cmd sim.resp buf 0x33 0x42 0x30 0x30)
  else if c1 = 78 then
    emitReply sim (unknown_cmd sim.resp buf 0x30 0x30 0x30 0x30)
  else if c1 = 80 then
    emitReply sim (unknown_cmd sim.resp buf 0x37 0x33 0x30 0x30)
  else if c1 = 81 then
    emitReply sim (unknown_cmd sim.resp buf 0x45 0x33 0x30 0x30)
  else if c1 = 82 then
    emitReply sim (unknown_cmd sim.resp buf 0x30 0x30 0x30 0x30)
  else if c1 = 83 then
    emitReply sim (unknown_cmd sim.resp buf 0x30 0x30 0x30 0x30)
  else if c1 = 84 then
    emitReply sim (unknown_cmd sim.resp buf 0x31 0x30 0x30 0x30)
  else if c1 = 86 then
    emitReply sim (unknown_cmd sim.resp buf 0x33 0x37 0x83 0x30)
  else
    ([NAK], sim, false)

/-- The sensor-query-class (`R*`) switch of `main`, keyed on the second
command byte `c1`; unrecognized sub-commands answer with a single NAK. -/
def rDispatch (sim : Sim) (buf : List Nat) (c1 : Nat) : List Nat × Sim × Bool :=
  if c1 = 72 then emitReply sim (send_temp sim.resp buf sim.ac.home)
  else if c1 = 73 then emitReply sim (send_temp sim.resp buf sim.ac.inlet)
  else if c1 = 97 then emitReply sim (send_temp sim.resp buf sim.ac.outside)
  else if c1 = 76 then emitReply sim (send_int sim.resp buf sim.ac.fanrpm)
  else if c1 = 100 then emitReply sim (send_int sim.resp buf sim.ac.comprpm)
  else if c1 = 78 then emitReply sim (send_temp sim.resp buf 235)
  else if c1 = 88 then emitReply sim (send_temp sim.resp buf 215)
  else ([NAK], sim, false)

/-- The command dispatch of `main` on a frame that already passed the checksum
test: set-class frames are acknowledged with a bare ACK and mutate the
state; query, sensor-query and identity-probe frames produce an ACK
followed by a framed response (and then wait for the peer's
acknowledgement, the returned flag); everything else is answered with a
single NAK. -/
def dispatch (sim : Sim) (buf : List Nat) : List Nat × Sim × Bool :=
  let c0 := buf.getD S21_CMD0_OFFSET 0
  let c1 := buf.getD S21_CMD1_OFFSET 0
  if c0 = 68 then
    ([ACK], { sim with ac := dSet sim.ac c1 buf }, false)
  else if c0 = 70 then
    fDispatch sim buf c1
  else if c0 = 77 then
    emitReply sim (s21_nonstd_reply
      (wr (wr (wr (wr (wr sim.resp S21_CMD0_OFFSET 77) 2 70) 3 70) 4 70) 5 70) 5)
  else if c0 = 82 then
    rDispatch sim buf c1
  else
    ([NAK], sim, false)

/-- The checksum test of `main`: the recomputed checksum must equal the
frame's trailing checksum byte (the byte before the end marker). -/
def validFrame (f : List Nat) : Bool :=
  s21_checksum f f.length == f.getD (f.length - 2) 0

/-- One frame's processing in `main`: frames failing the checksum test are
silently dropped (no output, no state change, no acknowledgement wait);
the rest are dispatched. -/
def handleFrame (sim : Sim) (f : List Nat) : List Nat × Sim × Bool :=
  if validFrame f then dispatch sim f else ([], sim, false)

/-- The byte-accumulation loop of `main`: starting from the already-buffered
bytes `buf` (empty, or the carried-over start marker), read one byte at a
time from `input`; while the buffer is empty, bytes other than the start
marker are discarded as garbage; accumulation stops when the byte just
read is the end marker, or when the 256-byte buffer is full.  Returns the
accumulated buffer and the unconsumed input, or `none` if the input is
exhausted first (the blocking `read` never returns). -/
def readFrame : List Nat → List Nat → Option (List Nat × List Nat)
  | _, [] => none
  | buf, b :: rest =>
    if buf = [] ∧ b ≠ STX then readFrame [] rest
    else
      let buf' := buf ++ [b]
      if b = ETX then some (buf', rest)
      else if buf'.length < 256 then readFrame buf' rest
      else some (buf', rest)

/-- The outer loop of `main`, bounded by `fuel` iterations (each iteration
consumes at least one input byte, so any `fuel` exceeding the input length
behaves like the unbounded loop): carry over a retained start marker, read
a frame, process it, and — when a framed response was sent — read the
peer's single acknowledgement byte, retaining it for the next cycle
exactly when it equals the start marker.  Returns all emitted bytes and
the final engine state. -/
def runFuel : Nat → Sim → Bool → List Nat → List Nat × Sim
  | 0, sim, _, _ => ([], sim)
  | fuel+1, sim, carry, input =>
    match readFrame (if carry then [STX] else []) input with
    | none => ([], sim)
    | some (frame, rest) =>
      let r := handleFrame sim frame
      if r.2.2 then
        match rest with
        | [] => (r.1, r.2.1)
        | a :: rest2 =>
          let r2 := runFuel fuel r.2.1 (a == STX) rest2
          (r.1 ++ r2.1, r2.2)
      else
        let r2 := runFuel fuel r.2.1 false rest
        (r.1 ++ r2.1, r2.2)

/-- The default simulated A/C state of the source's global initializers:
power off, mode 3, set point 22.5 degrees (45 half-degrees), fan 3, swing
0, powerful 0, eco 0, home 245, outside 205, inlet 185, fan rpm 52,
compressor rpm 42, protocol version 2, model code the four characters
1, 3, 5, D. -/
def initAc : AcState :=
  { power := 0, mode := 3, temp := 45, fan := 3, swing := 0, powerful := 0, eco := 0,
    home := 245, outside := 205, inlet := 185, fanrpm := 52, comprpm := 42,
    protocol := 2, model := [49, 51, 53, 68] }

/-- Default engine state: default A/C state and an all-zero response buffer
(the C array is uninitialized; theorems below quantify over the buffer). -/
def sim0 : Sim := { ac := initAc, resp := fun _ => 0 }

/-- The model-code length test of `main` at configuration time: the
configuration is rejected when the model string is shorter than 4
characters (`strlen(model) < 4`).  The string is modelled as its list of
characters. -/
def modelLengthOk (m : List Nat) : Bool := !(m.length < 4)

/-- The query sub-commands recognized by the `F*` switch of `main`
(the characters 1..9, B, C, G, K, M, N, P, Q, R, S, T, V). -/
def fSubs : List Nat := [49, 50, 51, 52, 53, 54, 55, 56, 57, 66, 67, 71, 75, 77, 78, 80, 81, 82, 83, 84, 86]

/-- The sensor-query sub-commands recognized by the `R*` switch of `main`
(the characters H, I, L, N, X, a, d). -/
def rSubs : List Nat := [72, 73, 76, 78, 88, 97, 100]

/-- A frame is a recognized query: an `F*` frame with a recognized
sub-command, the identity probe `M`, or an `R*` frame with a recognized
sub-command. -/
def recognizedQuery (buf : List Nat) : Prop :=
  (buf.getD S21_CMD0_OFFSET 0 = 70 ∧ buf.getD S21_CMD1_OFFSET 0 ∈ fSubs) ∨
  buf.getD S21_CMD0_OFFSET 0 = 77 ∨
  (buf.getD S21_CMD0_OFFSET 0 = 82 ∧ buf.getD S21_CMD1_OFFSET 0 ∈ rSubs)

/-- The emitted byte sequence is exactly one unframed ACK byte immediately
followed by exactly one framed response: a sequence starting with the
start marker, ending with the end marker, and short enough (a frame here
is at most 9 bytes) to be a single frame. -/
def ackThenFrame (out : List Nat) : Prop :=
  ∃ f, out = ACK :: f ∧ f.head? = some STX ∧ f.getLast? = some ETX ∧ f.length ≤ 9

/-- Every reply built by `s21_nonstd_reply` with a body of at most 6 bytes is
one ACK byte followed by one frame. -/
lemma nonstd_ackThenFrame (r : Nat → Nat) (bl : Nat) (hbl : bl ≤ 6) :
    ackThenFrame (s21_nonstd_reply r bl).1 := by
  simp only [s21_nonstd_reply]
  refine ⟨_, rfl, ?_, ?_, ?_⟩
  · have h : S21_FRAMING_LEN + bl = (2 + bl) + 1 := by simp only [S21_FRAMING_LEN]; omega
    rw [h, List.range_succ_eq_map]
    have h1 : (0 : Nat) ≠ S21_CMD0_OFFSET + bl := by simp only [S21_CMD0_OFFSET]; omega
    have h2 : (0 : Nat) ≠ S21_CMD0_OFFSET + bl + 1 := by simp only [S21_CMD0_OFFSET]; omega
    simp [wr, h1, h2, S21_STX_OFFSET]
  · have h : S21_FRAMING_LEN + bl = (S21_CMD0_OFFSET + bl + 1) + 1 := by
      simp only [S21_FRAMING_LEN, S21_CMD0_OFFSET]; omega
    rw [h, List.range_succ, List.map_append]
    simp [wr]
  · simp only [List.length_map, List.length_range, S21_FRAMING_LEN]
    omega

/-- Every reply built by `s21_reply` with a payload of at most 4 bytes,
wrapped by `emitReply`, is one ACK byte followed by one frame, and sets
the wait-for-acknowledgement flag. -/
lemma emitReply_reply_shape (sim : Sim) (r : Nat → Nat) (cmd : List Nat) (pl : Nat)
    (hpl : pl ≤ 4) :
    ackThenFrame (emitReply sim (s21_reply r cmd pl)).1 ∧
      (emitReply sim (s21_reply r cmd pl)).2.2 = true := by
  refine ⟨?_, rfl⟩
  show ackThenFrame (s21_reply r cmd pl).1
  unfold s21_reply
  exact nonstd_ackThenFrame _ _ (by omega)

/-- The identity-probe reply, wrapped by `emitReply`, is one ACK byte
followed by one frame, and sets the wait-for-acknowledgement flag. -/
lemma emitReply_nonstd_shape (sim : Sim) (r : Nat → Nat) (bl : Nat) (hbl : bl ≤ 6) :
    ackThenFrame (emitReply sim (s21_nonstd_reply r bl)).1 ∧
      (emitReply sim (s21_nonstd_reply r bl)).2.2 = true :=
  ⟨nonstd_ackThenFrame r bl hbl, rfl⟩

/-- Claim C1: for every validated query-class, sensor-query-class or
identity-probe frame with a recognized sub-command, the engine emits
exactly one unframed ACK byte followed by exactly one framed response, in
that order, with no other bytes in between (and then waits for the peer's
acknowledgement). -/
theorem c1_ack_then_single_response (sim : Sim) (buf : List Nat)
    (hv : validFrame buf = true) (hq : recognizedQuery buf) :
    ackThenFrame (handleFrame sim buf).1 ∧ (handleFrame sim buf).2.2 = true := by
  rcases hq with ⟨h0, h1⟩ | h0 | ⟨h0, h1⟩
  · simp only [fSubs, List.mem_cons, List.not_mem_nil, or_false] at h1
    rcases h1 with h1|h1|h1|h1|h1|h1|h1|h1|h1|h1|h1|h1|h1|h1|h1|h1|h1|h1|h1|h1|h1 <;>
      · simp only [handleFrame, hv, dispatch, fDispatch, unknown_cmd, h0, h1,
          Nat.reduceEqDiff, reduceIte]
        refine emitReply_reply_shape _ _ _ _ ?_
        simp [S21_PAYLOAD_LEN]
  · simp only [handleFrame, hv, dispatch, h0, Nat.reduceEqDiff, reduceIte]
    refine emitReply_nonstd_shape _ _ _ ?_
    omega
  · simp only [rSubs, List.mem_cons, List.not_mem_nil, or_false] at h1
    rcases h1 with h1|h1|h1|h1|h1|h1|h1 <;>
      · simp only [handleFrame, hv, dispatch, rDispatch, send_temp, send_int, h0, h1,
          Nat.reduceEqDiff, reduceIte]
        refine emitReply_reply_shape _ _ _ _ ?_
        simp [S21_PAYLOAD_LEN]

/-- Witness for C1: the default state answering a validated `F1` query. -/
theorem c1_witness :
    validFrame [2, 70, 49, 119, 3] = true ∧ recognizedQuery [2, 70, 49, 119, 3] ∧
      (ackThenFrame (handleFrame sim0 [2, 70, 49, 119, 3]).1 ∧
        (handleFrame sim0 [2, 70, 49, 119, 3]).2.2 = true) :=
  ⟨by decide, by unfold recognizedQuery; decide,
    c1_ack_then_single_response sim0 [2, 70, 49, 119, 3] (by decide)
      (by unfold recognizedQuery; decide)⟩

/-- A frame that fails the checksum test contributes nothing to the run: the
engine continues on the remaining input from the unchanged state. -/
lemma runFuel_drop_invalid (fuel : Nat) (sim : Sim) (carry : Bool)
    (input frame rest : List Nat)
    (hr : readFrame (if carry then [STX] else []) input = some (frame, rest))
    (hv : validFrame frame = false) :
    runFuel (fuel + 1) sim carry input = runFuel fuel sim false rest := by
  simp only [runFuel]
  rw [hr]
  simp [handleFrame, hv]

/-- Claim C2: a received frame whose computed checksum differs from its
trailing checksum byte produces no output at all (no ACK, no NAK, no
response), leaves the whole engine state unchanged, and the run continues
on the remaining input exactly as if the bad frame had never arrived. -/
theorem c2_bad_checksum_silence (fuel : Nat) (sim : Sim) (carry : Bool)
    (input frame rest : List Nat)
    (hr : readFrame (if carry then [STX] else []) input = some (frame, rest))
    (hv : validFrame frame = false) :
    handleFrame sim frame = ([], sim, false) ∧
      runFuel (fuel + 1) sim carry input = runFuel fuel sim false rest :=
  ⟨by simp [handleFrame, hv], runFuel_drop_invalid fuel sim carry input frame rest hr hv⟩

/-- Witness for C2: an `F1` frame with a corrupted checksum byte. -/
theorem c2_witness :
    readFrame (if false then [STX] else []) [2, 70, 49, 99, 3] = some ([2, 70, 49, 99, 3], []) ∧
      validFrame [2, 70, 49, 99, 3] = false ∧
      (handleFrame sim0 [2, 70, 49, 99, 3] = ([], sim0, false) ∧
        runFuel 1 sim0 false [2, 70, 49, 99, 3] = runFuel 0 sim0 false []) :=
  ⟨by decide, by decide,
    c2_bad_checksum_silence 0 sim0 false [2, 70, 49, 99, 3] [2, 70, 49, 99, 3] []
      (by decide) (by decide)⟩

/-- A 256-byte input that fills the frame buffer without ever containing the
end marker, crafted so that byte 254 equals the checksum of the
accumulated buffer: the first three bytes spell a valid `F1` command. -/
def c4Input : List Nat := [2, 70, 49] ++ List.replicate 251 0 ++ [119, 0]

/-- Counterexample to claim C4 as stated: when the frame buffer's capacity is
exhausted without an end marker, the accumulated bytes are NOT
unconditionally discarded — there is no distinct frame-too-long condition
in the code.  The full buffer proceeds to the ordinary checksum test, and
this input passes it and is dispatched: the engine emits a response from
that buffer. -/
theorem c4_counterexample :
    readFrame [] c4Input = some (c4Input, []) ∧ c4Input.length = 256 ∧
      c4Input.getLast? ≠ some ETX ∧ validFrame c4Input = true ∧
      (runFuel 1 sim0 false c4Input).1 ≠ [] := by
  refine ⟨by decide, by decide, by decide, by decide, ?_⟩
  decide

/-- Amended claim C4: when the buffer's capacity is exhausted without an end
marker, the accumulated bytes fall through to the ordinary checksum
validation; whenever that checksum test fails (the usual case for overlong
garbage) the buffer is discarded with no output, the state is unchanged,
and synchronization resumes from scratch on the subsequent byte stream. -/
theorem c4_overflow_discard (fuel : Nat) (sim : Sim) (carry : Bool)
    (input frame rest : List Nat)
    (hr : readFrame (if carry then [STX] else []) input = some (frame, rest))
    (hlen : frame.length = 256) (hend : frame.getLast? ≠ some ETX)
    (hv : validFrame frame = false) :
    runFuel (fuel + 1) sim carry input = runFuel fuel sim false rest :=
  runFuel_drop_invalid fuel sim carry input frame rest hr hv

/-- Witness for the amended C4: a 256-byte end-marker-free input whose
checksum byte does not match. -/
theorem c4_overflow_discard_witness :
    readFrame (if false then [STX] else []) ([2, 70, 49] ++ List.replicate 251 0 ++ [7, 0]) =
        some ([2, 70, 49] ++ List.replicate 251 0 ++ [7, 0], []) ∧
      ([2, 70, 49] ++ List.replicate 251 0 ++ [7, 0] : List Nat).length = 256 ∧
      ([2, 70, 49] ++ List.replicate 251 0 ++ [7, 0] : List Nat).getLast? ≠ some ETX ∧
      validFrame ([2, 70, 49] ++ List.replicate 251 0 ++ [7, 0]) = false ∧
      runFuel 1 sim0 false ([2, 70, 49] ++ List.replicate 251 0 ++ [7, 0]) =
        runFuel 0 sim0 false [] :=
  ⟨by decide, by decide, by decide, by decide,
    c4_overflow_discard 0 sim0 false ([2, 70, 49] ++ List.replicate 251 0 ++ [7, 0])
      ([2, 70, 49] ++ List.replicate 251 0 ++ [7, 0]) []
      (by decide) (by decide) (by decide) (by decide)⟩

/-- Counterexample to claim C5 as stated: the configuration-time model-code
test accepts a 5-character model string — the code only rejects strings
shorter than 4 characters (`strlen(model) < 4`), it does not require the
length to be exactly 4. -/
theorem c5_counterexample :
    modelLengthOk [49, 50, 51, 52, 53] = true ∧
      ([49, 50, 51, 52, 53] : List Nat).length ≠ 4 := by
  decide

/-- Amended claim C5: startup fails on the model-code length test exactly for
strings shorter than 4 characters; every string of length at least 4
(hence in particular every 4-character string) passes. -/
theorem c5_length_check (m : List Nat) : modelLengthOk m = true ↔ 4 ≤ m.length := by
  simp [modelLengthOk]

/-- Claim C3 fails on the code for sensor-query sub-commands answered through
`send_int`: the source passes the local digit buffer instead of the
request command to `s21_reply`, so a validated `RL` query (fan rpm 52,
formatted as the digits 0, 5, 2) is answered with the command identifier
bytes 54 and 50 (the characters 6 and 2) instead of 83 and 76 (the
characters S and L — the reply the real unit sends according to the dumps
quoted in the source comments). -/
theorem c3_send_int_wrong_command :
    validFrame [2, 82, 76, 158, 3] = true ∧
      (handleFrame sim0 [2, 82, 76, 158, 3]).1 = [6, 2, 54, 50, 50, 53, 48, 255, 3] ∧
      ((handleFrame sim0 [2, 82, 76, 158, 3]).1.getD 2 0,
        (handleFrame sim0 [2, 82, 76, 158, 3]).1.getD 3 0) ≠ (83, 76) := by
  decide

/-- A three-digit number's decimal ASCII digits. -/
lemma decDigits_three (n : Nat) (h1 : 100 ≤ n) (h2 : n ≤ 999) :
    decDigits n = [n / 100 + 48, n / 10 % 10 + 48, n % 10 + 48] := by
  obtain ⟨k, rfl⟩ : ∃ k, n = k + 1 := ⟨n - 1, by omega⟩
  obtain ⟨j, rfl⟩ : ∃ j, k = j + 1 := ⟨k - 1, by omega⟩
  show digitsCore (j + 1 + 1 + 1) (j + 1 + 1) = _
  rw [digitsCore, if_neg (by omega)]
  rw [digitsCore, if_neg (by omega)]
  rw [Nat.div_div_eq_div_mul]
  norm_num
  rw [digitsCore, if_pos (by omega)]
  simp

/-- For values of three decimal digits the formatted `send_temp` buffer is the
sign character followed by exactly three digit characters, with no
truncation and no stray terminator inside the four returned bytes. -/
lemma sprintfPlusD_three (v : Int) (h1 : 100 ≤ v.natAbs) (h2 : v.natAbs ≤ 999) :
    sprintfPlusD v = (if v < 0 then 45 else 43) ::
      [v.natAbs / 100 + 48, v.natAbs / 10 % 10 + 48, v.natAbs % 10 + 48] := by
  unfold sprintfPlusD
  rw [decDigits_three _ h1 h2]
  simp [List.take]

/-- The payload format asserted by claim C6: the value's sign-prefixed decimal
ASCII string (a sign character followed by the decimal digits, with no
padding). -/
def signDec (v : Int) : List Nat := (if v < 0 then 45 else 43) :: decDigits v.natAbs

/-- The engine state with all three configurable ambient temperature sensors
set to the pre-scaled value `v`. -/
def withSensors (sim : Sim) (v : Int) : Sim :=
  { sim with ac := { sim.ac with home := v, inlet := v, outside := v } }

/-- Amended claim C6: for every pre-scaled signed sensor value of exactly
three decimal digits (100 ≤ |v| ≤ 999, so that the sign-prefixed decimal
string has exactly 4 characters), the temperature-sensor query response
payload is that 4-character string written into the 4 payload bytes in
reverse order; in particular a home sensor reading of 245 queried via
`RH` yields the payload bytes for the characters 5, 4, 2, +. -/
theorem c6_sensor_payload_reversed (sim : Sim) (v : Int) (buf : List Nat)
    (h1 : 100 ≤ v.natAbs) (h2 : v.natAbs ≤ 999)
    (hv : validFrame buf = true) (h0 : buf.getD S21_CMD0_OFFSET 0 = 82)
    (hc : buf.getD S21_CMD1_OFFSET 0 ∈ [72, 73, 97]) :
    ((handleFrame (withSensors sim v) buf).1.drop 4).take 4 = (signDec v).reverse ∧
      (signDec v).length = 4 ∧ (handleFrame (withSensors sim v) buf).1.length = 10 ∧
      (handleFrame (withSensors sim v) buf).1.getD 0 0 = ACK ∧
      (handleFrame (withSensors sim v) buf).1.getD 1 0 = STX ∧
      (handleFrame (withSensors sim v) buf).1.getD 9 0 = ETX := by
  simp only [List.mem_cons, List.not_mem_nil, or_false] at hc
  rcases hc with hc|hc|hc <;>
    · simp only [handleFrame, hv, dispatch, rDispatch, h0, hc, Nat.reduceEqDiff, reduceIte,
        withSensors, if_true]
      rw [send_temp, sprintfPlusD_three v h1 h2]
      simp [emitReply, s21_reply, s21_nonstd_reply, wr, signDec, decDigits_three _ h1 h2,
        S21_FRAMING_LEN, S21_PAYLOAD_LEN, S21_CMD0_OFFSET, S21_CMD1_OFFSET, S21_STX_OFFSET,
        List.range_succ, STX, ETX, ACK]

/-- Witness for the amended C6: home sensor 245 queried via `RH` yields the
payload bytes 53, 52, 50, 43 — the characters 5, 4, 2, +. -/
theorem c6_sensor_payload_reversed_witness :
    (100 ≤ (245 : Int).natAbs ∧ (245 : Int).natAbs ≤ 999 ∧
        validFrame [2, 82, 72, 154, 3] = true ∧
        ([2, 82, 72, 154, 3] : List Nat).getD S21_CMD0_OFFSET 0 = 82 ∧
        ([2, 82, 72, 154, 3] : List Nat).getD S21_CMD1_OFFSET 0 ∈ [72, 73, 97]) ∧
      ((handleFrame (withSensors sim0 245) [2, 82, 72, 154, 3]).1.drop 4).take 4 =
          (signDec 245).reverse ∧
      (signDec 245).reverse = [53, 52, 50, 43] :=
  ⟨⟨by decide, by decide, by decide, by decide, by decide⟩,
    (c6_sensor_payload_reversed sim0 245 [2, 82, 72, 154, 3] (by decide) (by decide)
      (by decide) (by decide) (by decide)).1,
    by decide⟩

/-- Counterexample to claim C6 as stated: for the two-digit home sensor value
52 the `%+d` conversion produces only three characters, so the fourth
buffer byte is the NUL terminator and the `RH` response payload is 0, 50,
53, 43 — not the reversal of a sign-prefixed decimal ASCII string of
exactly 4 characters (under either reading: the unpadded string has only
3 characters, and the payload differs from the reversal of the zero-padded
string as well, since it contains the non-ASCII byte 0). -/
theorem c6_counterexample :
    validFrame [2, 82, 72, 154, 3] = true ∧
      ((handleFrame (withSensors sim0 52) [2, 82, 72, 154, 3]).1.drop 4).take 4 =
        [0, 50, 53, 43] ∧
      ((handleFrame (withSensors sim0 52) [2, 82, 72, 154, 3]).1.drop 4).take 4 ≠
        (signDec 52).reverse ∧
      (signDec 52).length ≠ 4 ∧
      ((handleFrame (withSensors sim0 52) [2, 82, 72, 154, 3]).1.drop 4).take 4 ≠
        [50, 53, 48, 43] := by
  decide

/-- Claim C7: a validated query-class or sensor-query-class frame with an
unrecognized sub-command is answered with exactly one unframed NAK byte,
no framed response, no change to any engine state, and no wait for a peer
acknowledgement byte. -/
theorem c7_unknown_subcommand_nak (sim : Sim) (buf : List Nat)
    (hv : validFrame buf = true)
    (h : (buf.getD S21_CMD0_OFFSET 0 = 70 ∧ buf.getD S21_CMD1_OFFSET 0 ∉ fSubs) ∨
      (buf.getD S21_CMD0_OFFSET 0 = 82 ∧ buf.getD S21_CMD1_OFFSET 0 ∉ rSubs)) :
    handleFrame sim buf = ([NAK], sim, false) := by
  rcases h with ⟨h0, h1⟩ | ⟨h0, h1⟩
  · simp only [fSubs, List.mem_cons, List.not_mem_nil, or_false, not_or] at h1
    obtain ⟨n1, n2, n3, n4, n5, n6, n7, n8, n9, n10, n11, n12, n13, n14, n15, n16, n17,
      n18, n19, n20, n21⟩ := h1
    simp only [handleFrame, hv, dispatch, fDispatch, h0, n1, n2, n3, n4, n5, n6, n7, n8,
      n9, n10, n11, n12, n13, n14, n15, n16, n17, n18, n19, n20, n21,
      Nat.reduceEqDiff, reduceIte, eq_self_iff_true, if_false, if_true]
  · simp only [rSubs, List.mem_cons, List.not_mem_nil, or_false, not_or] at h1
    obtain ⟨n1, n2, n3, n4, n5, n6, n7⟩ := h1
    simp only [handleFrame, hv, dispatch, rDispatch, h0, n1, n2, n3, n4, n5, n6, n7,
      Nat.reduceEqDiff, reduceIte, eq_self_iff_true, if_false, if_true]

/-- Witness for C7: the unrecognized query `FY` (the source comments note the
real unit NAKs it too). -/
theorem c7_witness :
    validFrame [2, 70, 89, 159, 3] = true ∧
      (([2, 70, 89, 159, 3] : List Nat).getD S21_CMD0_OFFSET 0 = 70 ∧
        ([2, 70, 89, 159, 3] : List Nat).getD S21_CMD1_OFFSET 0 ∉ fSubs) ∧
      handleFrame sim0 [2, 70, 89, 159, 3] = ([NAK], sim0, false) :=
  ⟨by decide, ⟨by decide, by decide⟩,
    c7_unknown_subcommand_nak sim0 [2, 70, 89, 159, 3] (by decide)
      (Or.inl ⟨by decide, by decide⟩)⟩

/-- A byte already below 256 is unchanged by the int-to-unsigned-char
conversion. -/
lemma byteOf_coe (p : Nat) (h : p < 256) : byteOf (p : Int) = p := by
  unfold byteOf
  rw [Int.emod_eq_of_lt (by positivity) (by exact_mod_cast h)]
  simp

/-- Encoding a freshly decoded target-temperature byte gives the byte back. -/
lemma encode_decode_temp (b : Nat) (h : b < 256) :
    s21_encode_target_temp (s21_decode_target_temp b) = b := by
  unfold s21_encode_target_temp s21_decode_target_temp
  rw [show (36 + ((b : Int) - 64) - 36 + 64) = (b : Int) from by ring, byteOf_coe b h]

/-- Encoding a freshly decoded fan byte gives the byte back. -/
lemma encode_decode_fan (b : Nat) (h : b < 256) :
    s21_encode_fan (s21_decode_fan b) = b := by
  unfold s21_encode_fan s21_decode_fan
  rw [show ((b : Int) - 48 + 48) = (b : Int) from by ring, byteOf_coe b h]

/-- What a `D1` set frame with payload bytes `p0 p1 p2 p3` does to the engine
state: power and mode are the ASCII digits offset from the character 0, the
target temperature and fan pass through their decoders, and every other
field — swing, powerful, eco, the sensors, protocol version, model code,
and the response buffer — is untouched. -/
def d1Apply (sim : Sim) (p0 p1 p2 p3 : Nat) : Sim :=
  { sim with ac :=
      { sim.ac with
        power := (p0 : Int) - 48,
        mode := (p1 : Int) - 48,
        temp := s21_decode_target_temp p2,
        fan := s21_decode_fan p3 } }

/-- Claim C8: a validated `D1` set frame is answered with exactly one bare ACK
byte and no framed response (and no acknowledgement wait); power, mode,
target temperature and fan are set from the four payload bytes (power and
mode as ASCII digits offset from the character 0, temperature and fan via
their decoders) while every other field — swing, powerful, eco, the
sensors, protocol version, model code, and the response buffer — is left
unchanged; and a subsequent validated `F1` query payload reproduces the
four bytes just set. -/
theorem c8_d1_set_then_f1 (sim : Sim) (buf f1 : List Nat) (p0 p1 p2 p3 : Nat)
    (hv : validFrame buf = true) (hc0 : buf.getD S21_CMD0_OFFSET 0 = 68)
    (hc1 : buf.getD S21_CMD1_OFFSET 0 = 49)
    (hp0 : buf.getD (S21_PAYLOAD_OFFSET + 0) 0 = p0)
    (hp1 : buf.getD (S21_PAYLOAD_OFFSET + 1) 0 = p1)
    (hp2 : buf.getD (S21_PAYLOAD_OFFSET + 2) 0 = p2)
    (hp3 : buf.getD (S21_PAYLOAD_OFFSET + 3) 0 = p3)
    (hb0 : p0 < 256) (hb1 : p1 < 256) (hb2 : p2 < 256) (hb3 : p3 < 256)
    (hv1 : validFrame f1 = true) (hf0 : f1.getD S21_CMD0_OFFSET 0 = 70)
    (hf1 : f1.getD S21_CMD1_OFFSET 0 = 49) :
    handleFrame sim buf = ([ACK], d1Apply sim p0 p1 p2 p3, false) ∧
      ((handleFrame (d1Apply sim p0 p1 p2 p3) f1).1.drop 4).take 4 = [p0, p1, p2, p3] := by
  constructor
  · simp only [handleFrame, hv, dispatch, dSet, d1Apply, hc0, hc1, hp0, hp1, hp2, hp3,
      Nat.reduceEqDiff, reduceIte]
  · simp only [handleFrame, hv1, dispatch, fDispatch, d1Apply, hf0, hf1,
      Nat.reduceEqDiff, reduceIte]
    have e0 : byteOf ((p0 : Int) - 48 + 48) = p0 := by
      rw [show ((p0 : Int) - 48 + 48) = (p0 : Int) from by ring, byteOf_coe p0 hb0]
    have e1 : byteOf ((p1 : Int) - 48 + 48) = p1 := by
      rw [show ((p1 : Int) - 48 + 48) = (p1 : Int) from by ring, byteOf_coe p1 hb1]
    simp [emitReply, s21_reply, s21_nonstd_reply, wr, e0, e1,
      byteOf_coe p0 hb0, byteOf_coe p1 hb1,
      encode_decode_temp p2 hb2, encode_decode_fan p3 hb3,
      S21_FRAMING_LEN, S21_PAYLOAD_LEN, S21_CMD0_OFFSET, S21_CMD1_OFFSET, S21_STX_OFFSET,
      List.range_succ]

/-- Witness for C8: setting power 1, mode 2, target 20.0 degrees (the wire
byte 68), fan 1, then querying `F1`. -/
theorem c8_witness :
    (validFrame [2, 68, 49, 49, 50, 68, 49, 77, 3] = true ∧
        validFrame [2, 70, 49, 119, 3] = true) ∧
      handleFrame sim0 [2, 68, 49, 49, 50, 68, 49, 77, 3] =
        ([ACK], d1Apply sim0 49 50 68 49, false) ∧
      ((handleFrame (d1Apply sim0 49 50 68 49) [2, 70, 49, 119, 3]).1.drop 4).take 4 =
        [49, 50, 68, 49] := by
  refine ⟨⟨by decide, by decide⟩, ?_, ?_⟩
  · exact (c8_d1_set_then_f1 sim0 [2, 68, 49, 49, 50, 68, 49, 77, 3] [2, 70, 49, 119, 3]
      49 50 68 49 (by decide) (by decide) (by decide) (by decide) (by decide) (by decide)
      (by decide) (by decide) (by decide) (by decide) (by decide) (by decide)
      (by decide) (by decide)).1
  · exact (c8_d1_set_then_f1 sim0 [2, 68, 49, 49, 50, 68, 49, 77, 3] [2, 70, 49, 119, 3]
      49 50 68 49 (by decide) (by decide) (by decide) (by decide) (by decide) (by decide)
      (by decide) (by decide) (by decide) (by decide) (by decide) (by decide)
      (by decide) (by decide)).2

/-- A retained start-marker byte at the head of the frame buffer is
indistinguishable from the same byte arriving at the head of the input
stream: the reader consumes a leading start marker into an empty buffer
without any other effect. -/
lemma readFrame_stx (l : List Nat) : readFrame [] (STX :: l) = readFrame [STX] l := rfl

/-- Starting a cycle with a carried-over start marker behaves exactly like
starting a fresh cycle with that start marker prepended to the input. -/
lemma runFuel_carry_eq_cons (fuel : Nat) (sim : Sim) (l : List Nat) :
    runFuel fuel sim true l = runFuel fuel sim false (STX :: l) := by
  cases fuel with
  | zero => rfl
  | succ k => rfl

/-- Claim C9: after the engine sends a framed response it reads exactly one
acknowledgement byte; if that byte equals the start marker it is retained
as the first byte of the next frame-reading cycle (the run continues
exactly as if the byte were at the head of a fresh cycle's input) and is
never treated as an error; for any other byte the buffer is cleared and
the next cycle starts from scratch on the remaining input.  In both cases
nothing is emitted for the acknowledgement byte itself and the state is
untouched by it. -/
theorem c9_ack_start_marker_carry (fuel : Nat) (sim : Sim) (carry : Bool)
    (input frame : List Nat) (a : Nat) (rest2 : List Nat)
    (hr : readFrame (if carry then [STX] else []) input = some (frame, a :: rest2))
    (hw : (handleFrame sim frame).2.2 = true) :
    runFuel (fuel + 1) sim carry input =
      if a = STX then
        ((handleFrame sim frame).1 ++
            (runFuel fuel (handleFrame sim frame).2.1 false (STX :: rest2)).1,
          (runFuel fuel (handleFrame sim frame).2.1 false (STX :: rest2)).2)
      else
        ((handleFrame sim frame).1 ++
            (runFuel fuel (handleFrame sim frame).2.1 false rest2).1,
          (runFuel fuel (handleFrame sim frame).2.1 false rest2).2) := by
  simp only [runFuel]
  rw [hr]
  simp only [hw, if_true]
  by_cases ha : a = STX
  · rw [if_pos ha]
    have hb : (a == STX) = true := by simp [ha]
    rw [hb, runFuel_carry_eq_cons]
  · rw [if_neg ha]
    have hb : (a == STX) = false := by simp [ha]
    rw [hb]

/-- Witness for C9: an `F7` query whose response the peer answers with a
start marker instead of ACK. -/
theorem c9_witness :
    readFrame (if false then [STX] else []) [2, 70, 55, 125, 3, 2] =
        some ([2, 70, 55, 125, 3], 2 :: ([] : List Nat)) ∧
      (handleFrame sim0 [2, 70, 55, 125, 3]).2.2 = true ∧
      runFuel 1 sim0 false [2, 70, 55, 125, 3, 2] =
        (if 2 = STX then
          ((handleFrame sim0 [2, 70, 55, 125, 3]).1 ++
              (runFuel 0 (handleFrame sim0 [2, 70, 55, 125, 3]).2.1 false (STX :: [])).1,
            (runFuel 0 (handleFrame sim0 [2, 70, 55, 125, 3]).2.1 false (STX :: [])).2)
        else
          ((handleFrame sim0 [2, 70, 55, 125, 3]).1 ++
              (runFuel 0 (handleFrame sim0 [2, 70, 55, 125, 3]).2.1 false []).1,
            (runFuel 0 (handleFrame sim0 [2, 70, 55, 125, 3]).2.1 false []).2)) :=
  ⟨by decide, by decide,
    c9_ack_start_marker_carry 0 sim0 false [2, 70, 55, 125, 3, 2] [2, 70, 55, 125, 3] 2 []
      (by decide) (by decide)⟩

/-- The eco field of the state inside a conditional is the common eco value of
both branches. -/
lemma eco_ite {e : Int} (c : Prop) [Decidable c] (x y : List Nat × Sim × Bool)
    (hx : ((x.2.1).ac.eco = e)) (hy : ((y.2.1).ac.eco = e)) :
    (((if c then x else y).2.1)).ac.eco = e := by
  by_cases h : c
  · rw [if_pos h]; exact hx
  · rw [if_neg h]; exact hy

/-- Variant of `eco_ite` for a conditional A/C state. -/
lemma eco_ite_ac {e : Int} (c : Prop) [Decidable c] (x y : AcState)
    (hx : x.eco = e) (hy : y.eco = e) : (if c then x else y).eco = e := by
  by_cases h : c
  · rw [if_pos h]; exact hx
  · rw [if_neg h]; exact hy

/-- No set-class handler writes the eco field. -/
lemma dSet_eco (a : AcState) (c1 : Nat) (buf : List Nat) :
    (dSet a c1 buf).eco = a.eco := by
  unfold dSet
  repeat refine eco_ite_ac _ _ _ rfl ?_
  rfl

/-- No query-class handler writes the eco field. -/
lemma fDispatch_eco (sim : Sim) (buf : List Nat) (c1 : Nat) :
    ((fDispatch sim buf c1).2.1).ac.eco = sim.ac.eco := by
  unfold fDispatch
  repeat refine eco_ite _ _ _ rfl ?_
  rfl

/-- No sensor-query handler writes the eco field. -/
lemma rDispatch_eco (sim : Sim) (buf : List Nat) (c1 : Nat) :
    ((rDispatch sim buf c1).2.1).ac.eco = sim.ac.eco := by
  unfold rDispatch
  repeat refine eco_ite _ _ _ rfl ?_
  rfl

/-- No command handler writes the eco field. -/
lemma dispatch_eco (sim : Sim) (f : List Nat) :
    ((dispatch sim f).2.1).ac.eco = sim.ac.eco := by
  simp only [dispatch]
  refine eco_ite _ _ _ (dSet_eco sim.ac _ f) ?_
  refine eco_ite _ _ _ (fDispatch_eco sim f _) ?_
  refine eco_ite _ _ _ rfl ?_
  refine eco_ite _ _ _ (rDispatch_eco sim f _) ?_
  rfl

/-- No command handler writes the eco field: one frame's processing leaves it
unchanged. -/
lemma handleFrame_eco (sim : Sim) (f : List Nat) :
    ((handleFrame sim f).2.1).ac.eco = sim.ac.eco := by
  unfold handleFrame
  exact eco_ite _ _ _ (dispatch_eco sim f) rfl

/-- No run of the engine, whatever the input, changes the eco field. -/
lemma runFuel_eco (fuel : Nat) (sim : Sim) (carry : Bool) (input : List Nat) :
    ((runFuel fuel sim carry input).2).ac.eco = sim.ac.eco := by
  induction fuel generalizing sim carry input with
  | zero => rfl
  | succ k ih =>
    simp only [runFuel]
    cases hr : readFrame (if carry then [STX] else []) input with
    | none => rfl
    | some pr =>
      obtain ⟨frame, rest⟩ := pr
      by_cases hw : (handleFrame sim frame).2.2
      · cases rest with
        | nil => simp [hw, handleFrame_eco]
        | cons a rest2 => simp [hw, ih, handleFrame_eco]
      · simp [hw, ih, handleFrame_eco]

/-- The eco byte of an `F7` response (payload byte 1, at offset 5 of the
emitted ACK-plus-frame sequence): the character 2 if eco is set, else the
character 0. -/
lemma f7_eco_byte (sim : Sim) (f7 : List Nat) (hv : validFrame f7 = true)
    (h0 : f7.getD S21_CMD0_OFFSET 0 = 70) (h1 : f7.getD S21_CMD1_OFFSET 0 = 55) :
    (handleFrame sim f7).1.getD 5 0 = (if sim.ac.eco = 0 then 48 else 50) := by
  simp only [handleFrame, hv, dispatch, fDispatch, h0, h1, Nat.reduceEqDiff, reduceIte]
  simp [emitReply, s21_reply, s21_nonstd_reply, wr,
    S21_FRAMING_LEN, S21_PAYLOAD_LEN, S21_CMD0_OFFSET, S21_CMD1_OFFSET, S21_STX_OFFSET,
    List.range_succ]

/-- Claim C10: no command handler ever mutates the eco flag — after any run of
the engine over any input (any sequence of frames, including every D-class
set command), the eco field equals the initially configured value, and the
eco byte of a subsequent `F7` query response reports the initial
configuration (the character 2 if eco was configured, else the character
0). -/
theorem c10_eco_never_mutated (fuel : Nat) (sim : Sim) (carry : Bool)
    (input f7 : List Nat) (hv : validFrame f7 = true)
    (h0 : f7.getD S21_CMD0_OFFSET 0 = 70) (h1 : f7.getD S21_CMD1_OFFSET 0 = 55) :
    ((runFuel fuel sim carry input).2).ac.eco = sim.ac.eco ∧
      (handleFrame (runFuel fuel sim carry input).2 f7).1.getD 5 0 =
        (if sim.ac.eco = 0 then 48 else 50) := by
  refine ⟨runFuel_eco fuel sim carry input, ?_⟩
  rw [f7_eco_byte _ f7 hv h0 h1, runFuel_eco]

/-- Witness for C10: a run over a `D6` set frame (powerful on), then an `F7`
query against the resulting state. -/
theorem c10_witness :
    validFrame [2, 70, 55, 125, 3] = true ∧
      ((runFuel 1 sim0 false [2, 68, 54, 50, 48, 48, 48, 60, 3]).2).ac.eco = sim0.ac.eco ∧
      (handleFrame (runFuel 1 sim0 false [2, 68, 54, 50, 48, 48, 48, 60, 3]).2
          [2, 70, 55, 125, 3]).1.getD 5 0 =
        (if sim0.ac.eco = 0 then 48 else 50) :=
  ⟨by decide,
    (c10_eco_never_mutated 1 sim0 false [2, 68, 54, 50, 48, 48, 48, 60, 3]
      [2, 70, 55, 125, 3] (by decide) (by decide) (by decide)).1,
    (c10_eco_never_mutated 1 sim0 false [2, 68, 54, 50, 48, 48, 48, 60, 3]
      [2, 70, 55, 125, 3] (by decide) (by decide) (by decide)).2⟩

end FaikinS21
